import Mathlib

/-
Verification of the resampling core of the repository (src/preprocessing/resize.py).

The function under study is resize_patient_numba, which rescales a 3d scan
volume into a caller-owned output buffer: it computes a per-axis scale factor
res_factor = out_patient.shape / patient.shape, calls the external
spline-interpolation routine (scipy ndimage zoom) once with that factor vector
and the requested spline order, and copies the full result into out_patient
with one whole-array slice assignment, finally returning the untouched
pipeline accumulator together with the shape of the output buffer.

Machine floats are idealized as exact rationals.  Arrays are total functions
from index triples to rationals together with an explicit shape.  Exceptions
are modelled with Except; the in-place mutation of the two array arguments is
modelled by explicit state passing: the model returns the post-states of both
arrays next to the returned value.
-/

namespace RadioResize

/-- Centered cardinal B-spline of degree 0 (nearest neighbour box kernel),
half-open on the right, matching rounding of coordinate plus one half. -/
def B0 (x : ℚ) : ℚ :=
  if -(1/2) ≤ x ∧ x < 1/2 then 1 else 0

/-- Centered cardinal B-spline of degree 1 (triangle kernel). -/
def B1 (x : ℚ) : ℚ :=
  if x < -1 then 0
  else if x < 0 then 1 + x
  else if x < 1 then 1 - x
  else 0

/-- Centered cardinal B-spline of degree 2. -/
def B2 (x : ℚ) : ℚ :=
  if x < -(3/2) then 0
  else if x < -(1/2) then (3/2 + x)^2 / 2
  else if x < 1/2 then 3/4 - x^2
  else if x < 3/2 then (3/2 - x)^2 / 2
  else 0

/-- Centered cardinal B-spline of degree 3 (cubic kernel). -/
def B3 (x : ℚ) : ℚ :=
  if x < -2 then 0
  else if x < -1 then (2 + x)^3 / 6
  else if x < 0 then 2/3 - x^2 - x^3 / 2
  else if x < 1 then 2/3 - x^2 + x^3 / 2
  else if x < 2 then (2 - x)^3 / 6
  else 0

/-- Centered cardinal B-spline of degree 4. -/
def B4 (x : ℚ) : ℚ :=
  if x < -(5/2) then 0
  else if x < -(3/2) then (5/2 + x)^4 / 24
  else if x < -(1/2) then (55 - 20*x - 120*x^2 - 80*x^3 - 16*x^4) / 96
  else if x < 1/2 then 115/192 - 5*x^2/8 + x^4/4
  else if x < 3/2 then (55 + 20*x - 120*x^2 + 80*x^3 - 16*x^4) / 96
  else if x < 5/2 then (5/2 - x)^4 / 24
  else 0

/-- Centered cardinal B-spline of degree 5 (quintic kernel). -/
def B5 (x : ℚ) : ℚ :=
  if x < -3 then 0
  else if x < -2 then (3 + x)^5 / 120
  else if x < -1 then (51 - 75*x - 210*x^2 - 150*x^3 - 45*x^4 - 5*x^5) / 120
  else if x < 0 then (66 - 60*x^2 + 30*x^4 + 10*x^5) / 120
  else if x < 1 then (66 - 60*x^2 + 30*x^4 - 10*x^5) / 120
  else if x < 2 then (51 + 75*x - 210*x^2 + 150*x^3 - 45*x^4 + 5*x^5) / 120
  else if x < 3 then (3 - x)^5 / 120
  else 0

/-- Spline kernel selected by the interpolation order, degrees 0 through 5. -/
def bspline (n : ℤ) (x : ℚ) : ℚ :=
  if n = 0 then B0 x
  else if n = 1 then B1 x
  else if n = 2 then B2 x
  else if n = 3 then B3 x
  else if n = 4 then B4 x
  else if n = 5 then B5 x
  else 0

lemma B0_in {x : ℚ} (h1 : -(1/2) ≤ x) (h2 : x < 1/2) : B0 x = 1 := by
  unfold B0; rw [if_pos ⟨h1, h2⟩]

lemma B0_out {x : ℚ} (h : x < -(1/2) ∨ 1/2 ≤ x) : B0 x = 0 := by
  unfold B0
  rw [if_neg]
  rintro ⟨h1, h2⟩
  rcases h with h | h <;> linarith

lemma B1_zleft {x : ℚ} (h : x ≤ -1) : B1 x = 0 := by
  unfold B1; split_ifs <;> first | rfl | linarith

lemma B1_left {x : ℚ} (h1 : -1 ≤ x) (h2 : x < 0) : B1 x = 1 + x := by
  unfold B1; split_ifs <;> first | rfl | linarith

lemma B1_right {x : ℚ} (h1 : 0 ≤ x) (h2 : x < 1) : B1 x = 1 - x := by
  unfold B1; split_ifs <;> first | rfl | linarith

lemma B1_zright {x : ℚ} (h : 1 ≤ x) : B1 x = 0 := by
  unfold B1; split_ifs <;> first | rfl | linarith

lemma B2_zleft {x : ℚ} (h : x < -(3/2)) : B2 x = 0 := by
  unfold B2; split_ifs <;> first | rfl | linarith

lemma B2_left {x : ℚ} (h1 : -(3/2) ≤ x) (h2 : x < -(1/2)) : B2 x = (3/2 + x)^2 / 2 := by
  unfold B2; split_ifs <;> first | rfl | linarith

lemma B2_center {x : ℚ} (h1 : -(1/2) ≤ x) (h2 : x < 1/2) : B2 x = 3/4 - x^2 := by
  unfold B2; split_ifs <;> first | rfl | linarith

lemma B2_right {x : ℚ} (h1 : 1/2 ≤ x) (h2 : x < 3/2) : B2 x = (3/2 - x)^2 / 2 := by
  unfold B2; split_ifs <;> first | rfl | linarith

lemma B2_zright {x : ℚ} (h : 3/2 ≤ x) : B2 x = 0 := by
  unfold B2; split_ifs <;> first | rfl | linarith

lemma B3_zleft {x : ℚ} (h : x < -2) : B3 x = 0 := by
  unfold B3; split_ifs <;> first | rfl | linarith

lemma B3_far_left {x : ℚ} (h1 : -2 ≤ x) (h2 : x < -1) : B3 x = (2 + x)^3 / 6 := by
  unfold B3; split_ifs <;> first | rfl | linarith

lemma B3_mid_left {x : ℚ} (h1 : -1 ≤ x) (h2 : x < 0) : B3 x = 2/3 - x^2 - x^3 / 2 := by
  unfold B3; split_ifs <;> first | rfl | linarith

lemma B3_mid_right {x : ℚ} (h1 : 0 ≤ x) (h2 : x < 1) : B3 x = 2/3 - x^2 + x^3 / 2 := by
  unfold B3; split_ifs <;> first | rfl | linarith

lemma B3_far_right {x : ℚ} (h1 : 1 ≤ x) (h2 : x < 2) : B3 x = (2 - x)^3 / 6 := by
  unfold B3; split_ifs <;> first | rfl | linarith

lemma B3_zright {x : ℚ} (h : 2 ≤ x) : B3 x = 0 := by
  unfold B3; split_ifs <;> first | rfl | linarith

lemma B4_zleft {x : ℚ} (h : x < -(5/2)) : B4 x = 0 := by
  unfold B4; split_ifs <;> first | rfl | linarith

lemma B4_outer_left {x : ℚ} (h1 : -(5/2) ≤ x) (h2 : x < -(3/2)) :
    B4 x = (5/2 + x)^4 / 24 := by
  unfold B4; split_ifs <;> first | rfl | linarith

lemma B4_mid_left {x : ℚ} (h1 : -(3/2) ≤ x) (h2 : x < -(1/2)) :
    B4 x = (55 - 20*x - 120*x^2 - 80*x^3 - 16*x^4) / 96 := by
  unfold B4; split_ifs <;> first | rfl | linarith

lemma B4_center {x : ℚ} (h1 : -(1/2) ≤ x) (h2 : x < 1/2) :
    B4 x = 115/192 - 5*x^2/8 + x^4/4 := by
  unfold B4; split_ifs <;> first | rfl | linarith

lemma B4_mid_right {x : ℚ} (h1 : 1/2 ≤ x) (h2 : x < 3/2) :
    B4 x = (55 + 20*x - 120*x^2 + 80*x^3 - 16*x^4) / 96 := by
  unfold B4; split_ifs <;> first | rfl | linarith

lemma B4_outer_right {x : ℚ} (h1 : 3/2 ≤ x) (h2 : x < 5/2) :
    B4 x = (5/2 - x)^4 / 24 := by
  unfold B4; split_ifs <;> first | rfl | linarith

lemma B4_zright {x : ℚ} (h : 5/2 ≤ x) : B4 x = 0 := by
  unfold B4; split_ifs <;> first | rfl | linarith

lemma B5_zleft {x : ℚ} (h : x < -3) : B5 x = 0 := by
  unfold B5; split_ifs <;> first | rfl | linarith

lemma B5_outer_left {x : ℚ} (h1 : -3 ≤ x) (h2 : x < -2) : B5 x = (3 + x)^5 / 120 := by
  unfold B5; split_ifs <;> first | rfl | linarith

lemma B5_mid_left {x : ℚ} (h1 : -2 ≤ x) (h2 : x < -1) :
    B5 x = (51 - 75*x - 210*x^2 - 150*x^3 - 45*x^4 - 5*x^5) / 120 := by
  unfold B5; split_ifs <;> first | rfl | linarith

lemma B5_inner_left {x : ℚ} (h1 : -1 ≤ x) (h2 : x < 0) :
    B5 x = (66 - 60*x^2 + 30*x^4 + 10*x^5) / 120 := by
  unfold B5; split_ifs <;> first | rfl | linarith

lemma B5_inner_right {x : ℚ} (h1 : 0 ≤ x) (h2 : x < 1) :
    B5 x = (66 - 60*x^2 + 30*x^4 - 10*x^5) / 120 := by
  unfold B5; split_ifs <;> first | rfl | linarith

lemma B5_mid_right {x : ℚ} (h1 : 1 ≤ x) (h2 : x < 2) :
    B5 x = (51 + 75*x - 210*x^2 + 150*x^3 - 45*x^4 + 5*x^5) / 120 := by
  unfold B5; split_ifs <;> first | rfl | linarith

lemma B5_outer_right {x : ℚ} (h1 : 2 ≤ x) (h2 : x < 3) : B5 x = (3 - x)^5 / 120 := by
  unfold B5; split_ifs <;> first | rfl | linarith

lemma B5_zright {x : ℚ} (h : 3 ≤ x) : B5 x = 0 := by
  unfold B5; split_ifs <;> first | rfl | linarith

/-- Window sum: the sum of a function over the seven integers centered at m.
A window of radius three covers the support of every kernel of degree at
most five around any evaluation coordinate with floor m. -/
def sumWin (m : ℤ) (f : ℤ → ℚ) : ℚ :=
  f (m - 3) + f (m - 2) + f (m - 1) + f m + f (m + 1) + f (m + 2) + f (m + 3)

lemma B0_window {t : ℚ} (h0 : 0 ≤ t) (h1 : t < 1) :
    B0 (t + 3) + B0 (t + 2) + B0 (t + 1) + B0 t + B0 (t - 1) + B0 (t - 2) + B0 (t - 3) = 1 := by
  rcases lt_or_le t (1/2) with h | h
  · rw [B0_out (Or.inr (by linarith)), B0_out (Or.inr (by linarith)),
      B0_out (Or.inr (by linarith)), B0_in (by linarith) (by linarith),
      B0_out (Or.inl (by linarith)), B0_out (Or.inl (by linarith)),
      B0_out (Or.inl (by linarith))]
    ring
  · rw [B0_out (Or.inr (by linarith)), B0_out (Or.inr (by linarith)),
      B0_out (Or.inr (by linarith)), B0_out (Or.inr (by linarith)),
      B0_in (by linarith) (by linarith), B0_out (Or.inl (by linarith)),
      B0_out (Or.inl (by linarith))]
    ring

lemma B1_window {t : ℚ} (h0 : 0 ≤ t) (h1 : t < 1) :
    B1 (t + 3) + B1 (t + 2) + B1 (t + 1) + B1 t + B1 (t - 1) + B1 (t - 2) + B1 (t - 3) = 1 := by
  rw [B1_zright (by linarith), B1_zright (by linarith), B1_zright (by linarith),
    B1_right (by linarith) (by linarith), B1_left (by linarith) (by linarith),
    B1_zleft (by linarith), B1_zleft (by linarith)]
  ring

lemma B2_window {t : ℚ} (h0 : 0 ≤ t) (h1 : t < 1) :
    B2 (t + 3) + B2 (t + 2) + B2 (t + 1) + B2 t + B2 (t - 1) + B2 (t - 2) + B2 (t - 3) = 1 := by
  rcases lt_or_le t (1/2) with h | h
  · rw [B2_zright (by linarith), B2_zright (by linarith),
      B2_right (by linarith) (by linarith), B2_center (by linarith) (by linarith),
      B2_left (by linarith) (by linarith), B2_zleft (by linarith), B2_zleft (by linarith)]
    ring
  · rw [B2_zright (by linarith), B2_zright (by linarith), B2_zright (by linarith),
      B2_right (by linarith) (by linarith), B2_center (by linarith) (by linarith),
      B2_left (by linarith) (by linarith), B2_zleft (by linarith)]
    ring

lemma B3_window {t : ℚ} (h0 : 0 ≤ t) (h1 : t < 1) :
    B3 (t + 3) + B3 (t + 2) + B3 (t + 1) + B3 t + B3 (t - 1) + B3 (t - 2) + B3 (t - 3) = 1 := by
  rw [B3_zright (by linarith), B3_zright (by linarith),
    B3_far_right (by linarith) (by linarith), B3_mid_right (by linarith) (by linarith),
    B3_mid_left (by linarith) (by linarith), B3_far_left (by linarith) (by linarith),
    B3_zleft (by linarith)]
  ring

lemma B4_window {t : ℚ} (h0 : 0 ≤ t) (h1 : t < 1) :
    B4 (t + 3) + B4 (t + 2) + B4 (t + 1) + B4 t + B4 (t - 1) + B4 (t - 2) + B4 (t - 3) = 1 := by
  rcases lt_or_le t (1/2) with h | h
  · rw [B4_zright (by linarith), B4_outer_right (by linarith) (by linarith),
      B4_mid_right (by linarith) (by linarith), B4_center (by linarith) (by linarith),
      B4_mid_left (by linarith) (by linarith), B4_outer_left (by linarith) (by linarith),
      B4_zleft (by linarith)]
    ring
  · rw [B4_zright (by linarith), B4_zright (by linarith),
      B4_outer_right (by linarith) (by linarith), B4_mid_right (by linarith) (by linarith),
      B4_center (by linarith) (by linarith), B4_mid_left (by linarith) (by linarith),
      B4_outer_left (by linarith) (by linarith)]
    ring

lemma B5_window {t : ℚ} (h0 : 0 ≤ t) (h1 : t < 1) :
    B5 (t + 3) + B5 (t + 2) + B5 (t + 1) + B5 t + B5 (t - 1) + B5 (t - 2) + B5 (t - 3) = 1 := by
  rw [B5_zright (by linarith), B5_outer_right (by linarith) (by linarith),
    B5_mid_right (by linarith) (by linarith), B5_inner_right (by linarith) (by linarith),
    B5_inner_left (by linarith) (by linarith), B5_mid_left (by linarith) (by linarith),
    B5_outer_left (by linarith) (by linarith)]
  ring

/-- Partition of unity: for every order between 0 and 5 the shifted kernels
summed over the window around the floor of the coordinate add up to one. -/
lemma sumWin_bspline_eq_one {n : ℤ} (h0 : 0 ≤ n) (h5 : n ≤ 5) (x : ℚ) :
    sumWin ⌊x⌋ (fun p => bspline n (x - (p : ℚ))) = 1 := by
  have ht0 : (0 : ℚ) ≤ x - (⌊x⌋ : ℚ) := sub_nonneg.mpr (Int.floor_le x)
  have ht1 : x - (⌊x⌋ : ℚ) < 1 := by
    have := Int.lt_floor_add_one x
    linarith
  unfold sumWin
  simp only
  have e1 : x - ((⌊x⌋ - 3 : ℤ) : ℚ) = x - (⌊x⌋ : ℚ) + 3 := by push_cast; ring
  have e2 : x - ((⌊x⌋ - 2 : ℤ) : ℚ) = x - (⌊x⌋ : ℚ) + 2 := by push_cast; ring
  have e3 : x - ((⌊x⌋ - 1 : ℤ) : ℚ) = x - (⌊x⌋ : ℚ) + 1 := by push_cast; ring
  have e4 : x - ((⌊x⌋ + 1 : ℤ) : ℚ) = x - (⌊x⌋ : ℚ) - 1 := by push_cast; ring
  have e5 : x - ((⌊x⌋ + 2 : ℤ) : ℚ) = x - (⌊x⌋ : ℚ) - 2 := by push_cast; ring
  have e6 : x - ((⌊x⌋ + 3 : ℤ) : ℚ) = x - (⌊x⌋ : ℚ) - 3 := by push_cast; ring
  rw [e1, e2, e3, e4, e5, e6]
  set t := x - (⌊x⌋ : ℚ) with hdef
  have hn : n = 0 ∨ n = 1 ∨ n = 2 ∨ n = 3 ∨ n = 4 ∨ n = 5 := by omega
  rcases hn with h | h | h | h | h | h <;> subst h <;>
    simp only [bspline] <;> norm_num
  · have := B0_window ht0 ht1; linarith
  · have := B1_window ht0 ht1; linarith
  · have := B2_window ht0 ht1; linarith
  · have := B3_window ht0 ht1; linarith
  · have := B4_window ht0 ht1; linarith
  · have := B5_window ht0 ht1; linarith

/-- Summing a kernel window against a constant reproduces the constant. -/
lemma sumWin_bspline_mul {n : ℤ} (h0 : 0 ≤ n) (h5 : n ≤ 5) (x c : ℚ) :
    sumWin ⌊x⌋ (fun p => bspline n (x - (p : ℚ)) * c) = c := by
  have h := sumWin_bspline_eq_one h0 h5 x
  unfold sumWin at h ⊢
  simp only at h ⊢
  linear_combination c * h

/-- Shape of a 3d array: one extent per axis. -/
abbrev Shape3 : Type := ℕ × ℕ × ℕ

/-- A 3d numeric array: an explicit shape together with a total map from
index triples to values.  Only indices below the shape are meaningful. -/
structure Volume where
  shape : Shape3
  data : ℕ → ℕ → ℕ → ℚ

/-- Modelled from the spec: mirror handling of spline taps that fall outside
the sample range, as done by the external interpolation library for the taps
of the reconstruction kernel near the array boundary.  Indices are folded
into the range by reflection about the end samples (period two n minus two).
An axis of extent one has only index zero. -/
def mirrorIdx (n : ℕ) (i : ℤ) : ℕ :=
  if n ≤ 1 then 0
  else if i % (2 * (n : ℤ) - 2) < (n : ℤ) then (i % (2 * (n : ℤ) - 2)).toNat
  else (2 * (n : ℤ) - 2 - i % (2 * (n : ℤ) - 2)).toNat

/-- Modelled from the spec: the coordinate map of the external interpolation
library (scipy ndimage zoom, the VolumeInterpolator of the spec).  Output
index i on an axis is mapped onto the source coordinate i times
(src minus one) over (dst minus one), so that the first and last samples of
source and destination grids coincide; a destination axis of extent at most
one maps to coordinate zero. -/
def mapCoord (src dst : ℕ) (i : ℕ) : ℚ :=
  if dst ≤ 1 then 0
  else (i : ℚ) * (((src : ℚ) - 1) / ((dst : ℚ) - 1))

/-- Sample fetch with mirrored out-of-range taps on each axis. -/
def coefAt (v : Volume) (p q r : ℤ) : ℚ :=
  v.data (mirrorIdx v.shape.1 p) (mirrorIdx v.shape.2.1 q) (mirrorIdx v.shape.2.2 r)

/-- Modelled from the spec: one combined 3d spline reconstruction of the
source samples at a real coordinate, as the tensor product of the 1d kernels
of the requested order, summed over a window that covers the kernel support
on every axis. -/
def reconstruct3D (v : Volume) (n : ℤ) (x y z : ℚ) : ℚ :=
  sumWin ⌊x⌋ (fun p => bspline n (x - (p : ℚ)) *
    sumWin ⌊y⌋ (fun q => bspline n (y - (q : ℚ)) *
      sumWin ⌊z⌋ (fun r => bspline n (z - (r : ℚ)) * coefAt v p q r)))

/-- Per-axis scale factor dst over src as machine division of the two array
extents.  A zero source extent makes the float quotient non-finite (the
division emits no exception); the non-finite outcome is modelled as none. -/
def axisFactor (dst src : ℕ) : Option ℚ :=
  if src = 0 then none else some ((dst : ℚ) / (src : ℚ))

/-- The res_factor vector of the source line
res_factor = np.array(out_patient.shape) / np.array(patient.shape). -/
def res_factor (outShape srcShape : Shape3) : Option ℚ × Option ℚ × Option ℚ :=
  (axisFactor outShape.1 srcShape.1,
   axisFactor outShape.2.1 srcShape.2.1,
   axisFactor outShape.2.2 srcShape.2.2)

/-- Modelled from the spec: the external interpolation routine
scipy.ndimage.interpolation.zoom, the VolumeInterpolator capability of the
spec, which is not part of this repository.  It first validates the spline
order (orders outside 0..5 are rejected, never clamped), then derives the
output shape by rounding extent times factor per axis; a non-finite factor
makes that conversion raise before anything is computed.  The returned array
holds the spline reconstruction of the input at the mapped coordinates. -/
def zoom (input : Volume) (factors : Option ℚ × Option ℚ × Option ℚ) (order : ℤ) :
    Except String Volume :=
  if order < 0 ∨ 5 < order then Except.error ("spline order not supported")
  else
    match factors with
    | (some f0, some f1, some f2) =>
      let d0 : ℕ := (round ((input.shape.1 : ℚ) * f0)).toNat
      let d1 : ℕ := (round ((input.shape.2.1 : ℚ) * f1)).toNat
      let d2 : ℕ := (round ((input.shape.2.2 : ℚ) * f2)).toNat
      Except.ok (Volume.mk (d0, d1, d2) (fun i j k =>
        reconstruct3D input order (mapCoord input.shape.1 d0 i)
          (mapCoord input.shape.2.1 d1 j) (mapCoord input.shape.2.2 d2 k)))
    | _ => Except.error ("cannot convert float NaN to integer")

/-- Whole-array slice assignment buf[:, :, :] = src.  The numpy statement
validates the shapes before any element is written, so it is atomic: on a
mismatch it raises with the buffer untouched, otherwise every in-range cell
of the buffer receives the corresponding source value.  The shape of the
buffer is never changed. -/
def sliceAssignAll (buf src : Volume) : Except String Volume :=
  if buf.shape = src.shape then
    Except.ok (Volume.mk buf.shape (fun i j k =>
      if i < buf.shape.1 ∧ j < buf.shape.2.1 ∧ k < buf.shape.2.2 then src.data i j k
      else buf.data i j k))
  else Except.error ("could not broadcast input array")

/-- Shallow embedding of resize_patient_numba of src/preprocessing/resize.py.
The python function mutates out_patient in place and reads patient; the model
threads both arrays explicitly and returns their post-states in the first
component, next to the Except carrying either the raised error or the python
return value (res, out_patient.shape).  The shape argument is bound to an
unused underscore in the source and has no effect; res is the opaque
pipeline accumulator, passed back untouched. -/
def resize_patient_numba {α β : Type} (patient out_patient : Volume) (res : α)
    (shape : β) (order : ℤ) : (Volume × Volume) × Except String (α × Shape3) :=
  match zoom patient (res_factor out_patient.shape patient.shape) order with
  | Except.error e => ((patient, out_patient), Except.error e)
  | Except.ok z =>
    match sliceAssignAll out_patient z with
    | Except.error e => ((patient, out_patient), Except.error e)
    | Except.ok newOut => ((patient, newOut), Except.ok (res, newOut.shape))

lemma mirrorIdx_lt {n : ℕ} (hn : 0 < n) (i : ℤ) : mirrorIdx n i < n := by
  unfold mirrorIdx
  by_cases h1 : n ≤ 1
  · rw [if_pos h1]
    omega
  · rw [if_neg h1]
    have hr0 : 0 ≤ i % (2 * (n : ℤ) - 2) := Int.emod_nonneg i (by omega)
    have hrlt : i % (2 * (n : ℤ) - 2) < 2 * (n : ℤ) - 2 :=
      Int.emod_lt_of_pos i (by omega)
    split_ifs with h2 <;> omega

lemma mirrorIdx_coe {n i : ℕ} (h : i < n) : mirrorIdx n ((i : ℕ) : ℤ) = i := by
  unfold mirrorIdx
  by_cases h1 : n ≤ 1
  · rw [if_pos h1]
    omega
  · rw [if_neg h1]
    have hmod : ((i : ℕ) : ℤ) % (2 * (n : ℤ) - 2) = (i : ℤ) :=
      Int.emod_eq_of_lt (by omega) (by omega)
    rw [hmod, if_pos (by omega)]
    omega

lemma mapCoord_self {n : ℕ} (i : ℕ) (h : i < n) : mapCoord n n i = (i : ℚ) := by
  unfold mapCoord
  split_ifs with h1
  · have : i = 0 := by omega
    subst this
    norm_num
  · have h2 : (2 : ℚ) ≤ (n : ℚ) := by exact_mod_cast (by omega : 2 ≤ n)
    have hne : ((n : ℚ) - 1) ≠ 0 := by linarith
    rw [div_self hne, mul_one]

lemma roundFactor {src dst : ℕ} (h : src ≠ 0) :
    (round ((src : ℚ) * ((dst : ℚ) / (src : ℚ)))).toNat = dst := by
  have hs : ((src : ℕ) : ℚ) ≠ 0 := Nat.cast_ne_zero.mpr h
  have he : (src : ℚ) * ((dst : ℚ) / (src : ℚ)) = (dst : ℚ) := by
    field_simp
  rw [he, round_natCast]
  exact Int.toNat_natCast dst

lemma res_factor_pos {os ps : Shape3} (ha : ps.1 ≠ 0) (hb : ps.2.1 ≠ 0) (hc : ps.2.2 ≠ 0) :
    res_factor os ps =
      (some ((os.1 : ℚ) / (ps.1 : ℚ)), some ((os.2.1 : ℚ) / (ps.2.1 : ℚ)),
       some ((os.2.2 : ℚ) / (ps.2.2 : ℚ))) := by
  unfold res_factor axisFactor
  rw [if_neg ha, if_neg hb, if_neg hc]

lemma zoom_ok (input : Volume) (d e f : ℕ) {order : ℤ}
    (h0 : 0 ≤ order) (h5 : order ≤ 5)
    (ha : input.shape.1 ≠ 0) (hb : input.shape.2.1 ≠ 0) (hc : input.shape.2.2 ≠ 0) :
    zoom input
      (some ((d : ℚ) / (input.shape.1 : ℚ)), some ((e : ℚ) / (input.shape.2.1 : ℚ)),
       some ((f : ℚ) / (input.shape.2.2 : ℚ))) order =
    Except.ok (Volume.mk (d, e, f) (fun i j k =>
      reconstruct3D input order (mapCoord input.shape.1 d i)
        (mapCoord input.shape.2.1 e j) (mapCoord input.shape.2.2 f k))) := by
  unfold zoom
  rw [if_neg (by omega)]
  simp only [roundFactor ha, roundFactor hb, roundFactor hc]

/-- The buffer state produced by a successful resize call: the shape of the
output buffer is kept and every in-range cell holds the reconstruction of the
source at the mapped coordinate. -/
def resizedVol (patient out_patient : Volume) (order : ℤ) : Volume :=
  Volume.mk out_patient.shape (fun i j k =>
    if i < out_patient.shape.1 ∧ j < out_patient.shape.2.1 ∧ k < out_patient.shape.2.2 then
      reconstruct3D patient order (mapCoord patient.shape.1 out_patient.shape.1 i)
        (mapCoord patient.shape.2.1 out_patient.shape.2.1 j)
        (mapCoord patient.shape.2.2 out_patient.shape.2.2 k)
    else out_patient.data i j k)

lemma sliceAssignAll_ok (buf src : Volume) (h : buf.shape = src.shape) :
    sliceAssignAll buf src = Except.ok (Volume.mk buf.shape (fun i j k =>
      if i < buf.shape.1 ∧ j < buf.shape.2.1 ∧ k < buf.shape.2.2 then src.data i j k
      else buf.data i j k)) := by
  unfold sliceAssignAll
  rw [if_pos h]

lemma resize_ok {α β : Type} (patient out_patient : Volume) (res : α) (shape : β)
    {order : ℤ} (h0 : 0 ≤ order) (h5 : order ≤ 5)
    (ha : patient.shape.1 ≠ 0) (hb : patient.shape.2.1 ≠ 0) (hc : patient.shape.2.2 ≠ 0) :
    resize_patient_numba patient out_patient res shape order =
      ((patient, resizedVol patient out_patient order), Except.ok (res, out_patient.shape)) := by
  unfold resize_patient_numba
  rw [res_factor_pos ha hb hc,
    zoom_ok patient out_patient.shape.1 out_patient.shape.2.1 out_patient.shape.2.2 h0 h5 ha hb hc]
  dsimp only
  rw [sliceAssignAll_ok out_patient
    (Volume.mk (out_patient.shape.1, out_patient.shape.2.1, out_patient.shape.2.2)
      (fun i j k =>
        reconstruct3D patient order (mapCoord patient.shape.1 out_patient.shape.1 i)
          (mapCoord patient.shape.2.1 out_patient.shape.2.1 j)
          (mapCoord patient.shape.2.2 out_patient.shape.2.2 k))) rfl]
  rfl

lemma resize_order_error {α β : Type} (patient out_patient : Volume) (res : α) (shape : β)
    {order : ℤ} (h : order < 0 ∨ 5 < order) :
    resize_patient_numba patient out_patient res shape order =
      ((patient, out_patient), Except.error ("spline order not supported")) := by
  unfold resize_patient_numba zoom
  rw [if_pos h]

lemma resize_zero_axis {α β : Type} (patient out_patient : Volume) (res : α) (shape : β)
    (order : ℤ)
    (h : patient.shape.1 = 0 ∨ patient.shape.2.1 = 0 ∨ patient.shape.2.2 = 0) :
    ∃ msg, resize_patient_numba patient out_patient res shape order =
      ((patient, out_patient), Except.error msg) := by
  by_cases hord : order < 0 ∨ 5 < order
  · exact ⟨_, resize_order_error patient out_patient res shape hord⟩
  · refine ⟨"cannot convert float NaN to integer", ?_⟩
    unfold resize_patient_numba zoom res_factor
    rw [if_neg hord]
    rcases hf1 : axisFactor out_patient.shape.1 patient.shape.1 with _ | f0 <;>
      rcases hf2 : axisFactor out_patient.shape.2.1 patient.shape.2.1 with _ | f1 <;>
       rcases hf3 : axisFactor out_patient.shape.2.2 patient.shape.2.2 with _ | f2 <;>
        try rfl
    exfalso
    rcases h with h | h | h
    · rw [show axisFactor out_patient.shape.1 patient.shape.1 = none by
        simp [axisFactor, h]] at hf1
      exact Option.noConfusion hf1
    · rw [show axisFactor out_patient.shape.2.1 patient.shape.2.1 = none by
        simp [axisFactor, h]] at hf2
      exact Option.noConfusion hf2
    · rw [show axisFactor out_patient.shape.2.2 patient.shape.2.2 = none by
        simp [axisFactor, h]] at hf3
      exact Option.noConfusion hf3

lemma bspline_zero (x : ℚ) : bspline 0 x = B0 x := by
  simp [bspline]

lemma sumWin_B0_nat (i : ℕ) (g : ℤ → ℚ) :
    sumWin ⌊((i : ℕ) : ℚ)⌋ (fun p => B0 (((i : ℕ) : ℚ) - (p : ℚ)) * g p) = g ((i : ℕ) : ℤ) := by
  rw [Int.floor_natCast]
  unfold sumWin
  simp only
  have e1 : ((i : ℕ) : ℚ) - ((((i : ℕ) : ℤ) - 3 : ℤ) : ℚ) = 3 := by push_cast; ring
  have e2 : ((i : ℕ) : ℚ) - ((((i : ℕ) : ℤ) - 2 : ℤ) : ℚ) = 2 := by push_cast; ring
  have e3 : ((i : ℕ) : ℚ) - ((((i : ℕ) : ℤ) - 1 : ℤ) : ℚ) = 1 := by push_cast; ring
  have e4 : ((i : ℕ) : ℚ) - ((((i : ℕ) : ℤ)) : ℚ) = 0 := by push_cast; ring
  have e5 : ((i : ℕ) : ℚ) - ((((i : ℕ) : ℤ) + 1 : ℤ) : ℚ) = -1 := by push_cast; ring
  have e6 : ((i : ℕ) : ℚ) - ((((i : ℕ) : ℤ) + 2 : ℤ) : ℚ) = -2 := by push_cast; ring
  have e7 : ((i : ℕ) : ℚ) - ((((i : ℕ) : ℤ) + 3 : ℤ) : ℚ) = -3 := by push_cast; ring
  rw [e1, e2, e3, e4, e5, e6, e7,
    B0_out (Or.inr (by norm_num)), B0_out (Or.inr (by norm_num)),
    B0_out (Or.inr (by norm_num)), B0_in (by norm_num) (by norm_num),
    B0_out (Or.inl (by norm_num)), B0_out (Or.inl (by norm_num)),
    B0_out (Or.inl (by norm_num))]
  ring

/-- Nearest-neighbour reconstruction at an exact grid point returns the
stored sample. -/
lemma reconstruct3D_zero_nat (v : Volume) (i j k : ℕ)
    (hi : i < v.shape.1) (hj : j < v.shape.2.1) (hk : k < v.shape.2.2) :
    reconstruct3D v 0 ((i : ℕ) : ℚ) ((j : ℕ) : ℚ) ((k : ℕ) : ℚ) = v.data i j k := by
  unfold reconstruct3D
  simp only [bspline_zero]
  simp only [sumWin_B0_nat]
  unfold coefAt
  rw [mirrorIdx_coe hi, mirrorIdx_coe hj, mirrorIdx_coe hk]

/-- Spline reconstruction of a constant field is that constant, at every
order between 0 and 5 and at every coordinate. -/
lemma reconstruct3D_const (v : Volume) {n : ℤ} (h0 : 0 ≤ n) (h5 : n ≤ 5) (K : ℚ)
    (ha : 0 < v.shape.1) (hb : 0 < v.shape.2.1) (hc : 0 < v.shape.2.2)
    (hK : ∀ a b c, a < v.shape.1 → b < v.shape.2.1 → c < v.shape.2.2 → v.data a b c = K)
    (x y z : ℚ) : reconstruct3D v n x y z = K := by
  have hcoef : ∀ p q r : ℤ, coefAt v p q r = K := fun p q r =>
    hK _ _ _ (mirrorIdx_lt ha p) (mirrorIdx_lt hb q) (mirrorIdx_lt hc r)
  unfold reconstruct3D
  simp only [hcoef, sumWin_bspline_mul h0 h5]

lemma resize_fst_fst {α β : Type} (patient out_patient : Volume) (res : α) (shape : β)
    (order : ℤ) :
    (resize_patient_numba patient out_patient res shape order).1.1 = patient := by
  unfold resize_patient_numba
  cases hz : zoom patient (res_factor out_patient.shape patient.shape) order with
  | error e => rfl
  | ok z =>
    dsimp only
    cases hs : sliceAssignAll out_patient z with
    | error e => rfl
    | ok w => rfl

/-- Every call either raises with both array states untouched, or succeeds
with the output buffer fully overwritten by the reconstruction. -/
lemma resize_cases {α β : Type} (patient out_patient : Volume) (res : α) (shape : β)
    (order : ℤ) :
    (∃ msg, resize_patient_numba patient out_patient res shape order =
       ((patient, out_patient), Except.error msg)) ∨
    resize_patient_numba patient out_patient res shape order =
       ((patient, resizedVol patient out_patient order), Except.ok (res, out_patient.shape)) := by
  by_cases hord : order < 0 ∨ 5 < order
  · exact Or.inl ⟨_, resize_order_error _ _ _ _ hord⟩
  by_cases hz : patient.shape.1 = 0 ∨ patient.shape.2.1 = 0 ∨ patient.shape.2.2 = 0
  · exact Or.inl (resize_zero_axis _ _ _ _ _ hz)
  push_neg at hord hz
  exact Or.inr (resize_ok _ _ _ _ hord.1 hord.2 hz.1 hz.2.1 hz.2.2)

/-- Claim C1: for a source volume with three positive axis lengths and any
output buffer, the call computes the per-axis scale factor as destination
extent over source extent, performs one single combined 3d spline
reconstruction of the source with that factor vector and the given order,
and writes the full result into the output buffer, fully replacing its
previous contents. -/
theorem resize_scale_and_single_zoom {α β : Type} (patient out_patient : Volume) (res : α)
    (shape : β) (order : ℤ) (h0 : 0 ≤ order) (h5 : order ≤ 5)
    (ha : 0 < patient.shape.1) (hb : 0 < patient.shape.2.1) (hc : 0 < patient.shape.2.2) :
    ∃ z : Volume,
      zoom patient
        (some ((out_patient.shape.1 : ℚ) / (patient.shape.1 : ℚ)),
         some ((out_patient.shape.2.1 : ℚ) / (patient.shape.2.1 : ℚ)),
         some ((out_patient.shape.2.2 : ℚ) / (patient.shape.2.2 : ℚ))) order = Except.ok z ∧
      (resize_patient_numba patient out_patient res shape order).2 =
        Except.ok (res, out_patient.shape) ∧
      ∀ i j k, i < out_patient.shape.1 → j < out_patient.shape.2.1 →
        k < out_patient.shape.2.2 →
        ((resize_patient_numba patient out_patient res shape order).1.2).data i j k =
          z.data i j k := by
  have ha2 : patient.shape.1 ≠ 0 := by omega
  have hb2 : patient.shape.2.1 ≠ 0 := by omega
  have hc2 : patient.shape.2.2 ≠ 0 := by omega
  refine ⟨_, zoom_ok patient out_patient.shape.1 out_patient.shape.2.1 out_patient.shape.2.2
    h0 h5 ha2 hb2 hc2, ?_, ?_⟩
  · rw [resize_ok patient out_patient res shape h0 h5 ha2 hb2 hc2]
  · intro i j k hi hj hk
    rw [resize_ok patient out_patient res shape h0 h5 ha2 hb2 hc2]
    dsimp only [resizedVol]
    rw [if_pos ⟨hi, hj, hk⟩]

/-- Claim C2: resampling a source volume of positive shape (a, b, c) into a
buffer of positive shape (d, e, f) leaves the shape of the buffer exactly
(d, e, f) after the call; the caller-owned buffer is never reallocated or
reshaped. -/
theorem resize_buffer_shape_invariant {α β : Type} (patient out_patient : Volume) (res : α)
    (shape : β) (order : ℤ) (a b c d e f : ℕ)
    (hps : patient.shape = (a, b, c)) (hos : out_patient.shape = (d, e, f))
    (ha : 0 < a) (hb : 0 < b) (hc : 0 < c) (hd : 0 < d) (he : 0 < e) (hf : 0 < f) :
    ((resize_patient_numba patient out_patient res shape order).1.2).shape = (d, e, f) := by
  rcases resize_cases patient out_patient res shape order with ⟨msg, hE⟩ | hO
  · rw [hE]
    exact hos
  · rw [hO]
    exact hos

/-- Claim C3: whenever the call completes normally its return value is the
pair of the pipeline accumulator it was given, unchanged and never
inspected (the statement is polymorphic in the accumulator type), together
with the final shape of the output buffer. -/
theorem resize_accumulator_passthrough {α β : Type} (patient out_patient : Volume)
    (res : α) (shape : β) (order : ℤ) (p : α × Shape3)
    (h : (resize_patient_numba patient out_patient res shape order).2 = Except.ok p) :
    p.1 = res ∧
      p.2 = ((resize_patient_numba patient out_patient res shape order).1.2).shape := by
  rcases resize_cases patient out_patient res shape order with ⟨msg, hE⟩ | hO
  · rw [hE] at h
    exact absurd h (by simp)
  · rw [hO] at h
    have h3 : Except.ok (res, out_patient.shape) = Except.ok p := h
    have hp : p = (res, out_patient.shape) := by
      injection h3 with h2
      exact h2.symm
    subst hp
    refine ⟨rfl, ?_⟩
    rw [hO]
    rfl

/-- Claim C4: resampling a volume of positive shape into a buffer of the
same shape with interpolation order 0 reproduces the source values exactly
in every cell of the buffer. -/
theorem resize_identity_same_shape_order0 {α β : Type} (patient out_patient : Volume)
    (res : α) (shape : β)
    (hsame : out_patient.shape = patient.shape)
    (ha : 0 < patient.shape.1) (hb : 0 < patient.shape.2.1) (hc : 0 < patient.shape.2.2) :
    ∀ i j k, i < patient.shape.1 → j < patient.shape.2.1 → k < patient.shape.2.2 →
      ((resize_patient_numba patient out_patient res shape 0).1.2).data i j k =
        patient.data i j k := by
  intro i j k hi hj hk
  rw [resize_ok patient out_patient res shape (by norm_num) (by norm_num)
    (by omega) (by omega) (by omega)]
  dsimp only [resizedVol]
  simp only [hsame]
  rw [if_pos ⟨hi, hj, hk⟩,
    mapCoord_self i hi, mapCoord_self j hj, mapCoord_self k hk]
  exact reconstruct3D_zero_nat patient i j k hi hj hk

/-- Claim C5: resampling a source volume that is constantly K, with positive
source and destination shapes and any interpolation order between 0 and 5,
fills the output buffer with the constant K everywhere; interpolating a
constant field introduces no variation. -/
theorem resize_constant_field {α β : Type} (patient out_patient : Volume) (res : α)
    (shape : β) (order : ℤ) (K : ℚ)
    (h0 : 0 ≤ order) (h5 : order ≤ 5)
    (ha : 0 < patient.shape.1) (hb : 0 < patient.shape.2.1) (hc : 0 < patient.shape.2.2)
    (hd : 0 < out_patient.shape.1) (he : 0 < out_patient.shape.2.1)
    (hf : 0 < out_patient.shape.2.2)
    (hK : ∀ a b c, a < patient.shape.1 → b < patient.shape.2.1 → c < patient.shape.2.2 →
      patient.data a b c = K) :
    ∀ i j k, i < out_patient.shape.1 → j < out_patient.shape.2.1 →
      k < out_patient.shape.2.2 →
      ((resize_patient_numba patient out_patient res shape order).1.2).data i j k = K := by
  intro i j k hi hj hk
  rw [resize_ok patient out_patient res shape h0 h5 (by omega) (by omega) (by omega)]
  dsimp only [resizedVol]
  rw [if_pos ⟨hi, hj, hk⟩]
  exact reconstruct3D_const patient h0 h5 K ha hb hc hK _ _ _

/-- Claim C6: a source volume with an axis of length zero makes the call
raise before any write: the division by zero in the scale computation yields
a non-finite factor whose integer conversion fails inside the interpolation
routine, the error propagates out, and both array states are exactly as
before the call, so no NaN or Inf value reaches the output buffer. -/
theorem resize_zero_axis_raises {α β : Type} (patient out_patient : Volume) (res : α)
    (shape : β) (order : ℤ)
    (h : patient.shape.1 = 0 ∨ patient.shape.2.1 = 0 ∨ patient.shape.2.2 = 0) :
    ∃ msg, resize_patient_numba patient out_patient res shape order =
      ((patient, out_patient), Except.error msg) :=
  resize_zero_axis patient out_patient res shape order h

/-- Claim C7: a single call has no partial-success state: either it raises
and both arrays are exactly as before the call, or it returns normally and
every cell of the output buffer holds the reconstruction of the source at
the mapped coordinate. -/
theorem resize_atomic {α β : Type} (patient out_patient : Volume) (res : α) (shape : β)
    (order : ℤ) :
    (∃ msg, resize_patient_numba patient out_patient res shape order =
       ((patient, out_patient), Except.error msg)) ∨
    ((resize_patient_numba patient out_patient res shape order).2 =
       Except.ok (res, out_patient.shape) ∧
     ∀ i j k, i < out_patient.shape.1 → j < out_patient.shape.2.1 →
       k < out_patient.shape.2.2 →
       ((resize_patient_numba patient out_patient res shape order).1.2).data i j k =
         reconstruct3D patient order (mapCoord patient.shape.1 out_patient.shape.1 i)
           (mapCoord patient.shape.2.1 out_patient.shape.2.1 j)
           (mapCoord patient.shape.2.2 out_patient.shape.2.2 k)) := by
  rcases resize_cases patient out_patient res shape order with hE | hO
  · exact Or.inl hE
  · refine Or.inr ⟨by rw [hO], ?_⟩
    intro i j k hi hj hk
    rw [hO]
    dsimp only [resizedVol]
    rw [if_pos ⟨hi, hj, hk⟩]

/-- Claim C8: an interpolation order outside 0..5 makes the call fail with
the configuration error of the interpolation routine at call time, leaving
both arrays untouched; the order is never silently clamped. -/
theorem resize_order_out_of_range {α β : Type} (patient out_patient : Volume) (res : α)
    (shape : β) (order : ℤ) (h : order < 0 ∨ 5 < order) :
    resize_patient_numba patient out_patient res shape order =
      ((patient, out_patient), Except.error ("spline order not supported")) :=
  resize_order_error patient out_patient res shape h

/-- Claim C9: the source volume is read only: its post-state after any call
is identical to its pre-state; the output buffer is the only array the call
mutates. -/
theorem resize_source_untouched {α β : Type} (patient out_patient : Volume) (res : α)
    (shape : β) (order : ℤ) :
    (resize_patient_numba patient out_patient res shape order).1.1 = patient :=
  resize_fst_fst patient out_patient res shape order

/-- Claim C10: the shape parameter is ignored entirely: two calls that
differ only in the shape argument, even taken from different types, produce
identical array post-states and an identical return value; the destination
shape is always inferred from the output buffer. -/
theorem resize_shape_arg_ignored {α β γ : Type} (patient out_patient : Volume) (res : α)
    (s1 : β) (s2 : γ) (order : ℤ) :
    resize_patient_numba patient out_patient res s1 order =
      resize_patient_numba patient out_patient res s2 order := rfl

/-- Concrete one-cell source volume holding the value seven. -/
def vol111 : Volume := Volume.mk (1, 1, 1) (fun _ _ _ => 7)

/-- Concrete one-cell output buffer holding zero. -/
def buf111 : Volume := Volume.mk (1, 1, 1) (fun _ _ _ => 0)

/-- Concrete constant source volume of shape (2, 2, 2) holding five. -/
def vol222 : Volume := Volume.mk (2, 2, 2) (fun _ _ _ => 5)

/-- Concrete output buffer of shape (3, 3, 3) holding zero. -/
def buf333 : Volume := Volume.mk (3, 3, 3) (fun _ _ _ => 0)

/-- Concrete source volume with a zero-length first axis. -/
def vol011 : Volume := Volume.mk (0, 1, 1) (fun _ _ _ => 7)

theorem resize_scale_and_single_zoom_witness :
    (0 : ℤ) ≤ 3 ∧ (3 : ℤ) ≤ 5 ∧ 0 < vol222.shape.1 ∧ 0 < vol222.shape.2.1 ∧
      0 < vol222.shape.2.2 ∧
      (resize_patient_numba vol222 buf333 (0 : ℕ) () 3).2 =
        Except.ok (0, buf333.shape) := by
  obtain ⟨z, hz, hsnd, hdata⟩ := resize_scale_and_single_zoom vol222 buf333 (0 : ℕ) () 3
    (by norm_num) (by norm_num) (by decide) (by decide) (by decide)
  exact ⟨by norm_num, by norm_num, by decide, by decide, by decide, hsnd⟩

theorem resize_buffer_shape_invariant_witness :
    vol222.shape = (2, 2, 2) ∧ buf333.shape = (3, 3, 3) ∧ 0 < 2 ∧ 0 < 3 ∧
      ((resize_patient_numba vol222 buf333 (0 : ℕ) () 3).1.2).shape = (3, 3, 3) :=
  ⟨rfl, rfl, by decide, by decide,
    resize_buffer_shape_invariant vol222 buf333 (0 : ℕ) () 3 2 2 2 3 3 3 rfl rfl
      (by decide) (by decide) (by decide) (by decide) (by decide) (by decide)⟩

theorem resize_accumulator_passthrough_witness :
    (resize_patient_numba vol222 buf333 (41 : ℕ) () 3).2 =
        Except.ok ((41 : ℕ), ((3, 3, 3) : Shape3)) ∧
      ((41 : ℕ), ((3, 3, 3) : Shape3)).1 = 41 ∧
      ((41 : ℕ), ((3, 3, 3) : Shape3)).2 =
        ((resize_patient_numba vol222 buf333 (41 : ℕ) () 3).1.2).shape := by
  have h : (resize_patient_numba vol222 buf333 (41 : ℕ) () 3).2 =
      Except.ok ((41 : ℕ), ((3, 3, 3) : Shape3)) := by
    rw [resize_ok vol222 buf333 (41 : ℕ) () (by norm_num) (by norm_num)
      (by decide) (by decide) (by decide)]
    rfl
  obtain ⟨h1, h2⟩ := resize_accumulator_passthrough vol222 buf333 (41 : ℕ) () 3
    ((41 : ℕ), ((3, 3, 3) : Shape3)) h
  exact ⟨h, h1, h2⟩

theorem resize_identity_same_shape_order0_witness :
    buf111.shape = vol111.shape ∧ 0 < vol111.shape.1 ∧ 0 < vol111.shape.2.1 ∧
      0 < vol111.shape.2.2 ∧
      ((resize_patient_numba vol111 buf111 (0 : ℕ) () 0).1.2).data 0 0 0 =
        vol111.data 0 0 0 :=
  ⟨rfl, by decide, by decide, by decide,
    resize_identity_same_shape_order0 vol111 buf111 (0 : ℕ) () rfl
      (by decide) (by decide) (by decide) 0 0 0 (by decide) (by decide) (by decide)⟩

theorem resize_constant_field_witness :
    (0 : ℤ) ≤ 3 ∧ (3 : ℤ) ≤ 5 ∧ 0 < vol222.shape.1 ∧ 0 < buf333.shape.1 ∧
      vol222.data 0 0 0 = 5 ∧
      ((resize_patient_numba vol222 buf333 (0 : ℕ) () 3).1.2).data 1 2 0 = 5 :=
  ⟨by norm_num, by norm_num, by decide, by decide, rfl,
    resize_constant_field vol222 buf333 (0 : ℕ) () 3 5 (by norm_num) (by norm_num)
      (by decide) (by decide) (by decide) (by decide) (by decide) (by decide)
      (fun _ _ _ _ _ _ => rfl) 1 2 0 (by decide) (by decide) (by decide)⟩

theorem resize_zero_axis_raises_witness :
    vol011.shape.1 = 0 ∧
      ∃ msg, resize_patient_numba vol011 buf111 (0 : ℕ) () 3 =
        ((vol011, buf111), Except.error msg) :=
  ⟨rfl, resize_zero_axis_raises vol011 buf111 (0 : ℕ) () 3 (Or.inl rfl)⟩

theorem resize_order_out_of_range_witness :
    ((6 : ℤ) < 0 ∨ (5 : ℤ) < 6) ∧
      resize_patient_numba vol111 buf111 (0 : ℕ) () 6 =
        ((vol111, buf111), Except.error ("spline order not supported")) :=
  ⟨by norm_num, resize_order_out_of_range vol111 buf111 (0 : ℕ) () 6 (by norm_num)⟩

end RadioResize
